import Mathlib

/-!
A shallow embedding of the Garbage-Detection-System Flask application
(`app.py`) together with proofs about its upload pipeline, location
parsing, analytics aggregation and record listing.

Python strings are modelled as Lean `String`; byte strings as `List Nat`;
Python floats as exact scaled decimals; SQLite rows as a `Row` structure.
External collaborators (PIL, the YOLO classifier, werkzeug, `uuid`,
`datetime.now`) are modelled as explicit parameters or as small Lean
models of the library functions, documented at each definition.
-/

namespace GarbageApp

/-! ## Generic string machinery -/

/-- The code points of a string, in order.  SQLite's BINARY collation and
Python's string comparison both compare by code point / byte for the ASCII
strings this app produces. -/
def bytesOf (s : String) : List Nat :=
  s.toList.map Char.toNat

/-- Byte-wise (memcmp-style) `≤` on code-point lists: first differing
entry decides; a proper prefix is smaller. -/
def memLe : List Nat → List Nat → Bool
  | [], _ => true
  | _ :: _, [] => false
  | a :: as, b :: bs => if a < b then true else if b < a then false else memLe as bs

/-- Lexicographic `≤` on strings by code point, as used by Python's
`sorted` and SQLite's default text ordering. -/
def strAsc (a b : String) : Prop := memLe (bytesOf a) (bytesOf b) = true

instance : DecidableRel strAsc := fun a b =>
  inferInstanceAs (Decidable (memLe (bytesOf a) (bytesOf b) = true))

/-- `startsWithL hay needle`: `needle` is a prefix of `hay`. -/
def startsWithL : List Char → List Char → Bool
  | _, [] => true
  | [], _ :: _ => false
  | a :: as, b :: bs => a == b && startsWithL as bs

/-- `hasSubL hay needle`: `needle` occurs contiguously inside `hay`
(Python's `needle in hay`). -/
def hasSubL : List Char → List Char → Bool
  | [], needle => needle.isEmpty
  | a :: as, needle => startsWithL (a :: as) needle || hasSubL as needle

/-- Python's `needle in hay` on strings. -/
def strHasSub (hay needle : String) : Bool :=
  hasSubL hay.toList needle.toList

/-- Model of Python's `str.lower()` (ASCII case folding; every string this
app lowercases is ASCII). -/
def asciiLower (s : String) : String :=
  ⟨s.toList.map Char.toLower⟩

/-- Model of Python's `str.strip()` with no argument: drop whitespace
from both ends. -/
def pyStrip (s : String) : String :=
  ⟨((s.toList.dropWhile Char.isWhitespace).reverse.dropWhile
      Char.isWhitespace).reverse⟩

/-- Model of Python's `str.split(",")`: cut at every comma, keeping
empty pieces. -/
def commaSplit (s : String) : List String :=
  (s.toList.splitOnP (· == ',')).map fun cs => ⟨cs⟩

/-! ## Configuration constants (app.py, config section) -/

def UPLOAD_FOLDER : String := "uploads"
def DETECTION_FOLDER : String := "runs"
def DB_NAME : String := "database.db"

def ALLOWED_IMAGE_EXTENSIONS : List String :=
  ["jpg", "jpeg", "png", "bmp", "gif", "tiff", "webp", "jfif"]

def ALLOWED_VIDEO_EXTENSIONS : List String :=
  ["mp4", "avi", "mov", "mkv", "webm"]

def CITY_NAME : String := "Muzaffarabad, Azad Kashmir"

/-! ## Model of Python's `float()` on decimal literals

`parse_location_to_coords` calls the builtin `float()` on user text.  We
model it exactly, over scaled decimals `num / 10 ^ exp10`, for standard
decimal literals: optional sign, digits with at most one decimal point,
optional exponent part.  (The builtin additionally accepts `inf`/`nan`
spellings and digit underscores; no claim depends on those inputs.) -/

/-- An exact decimal number `num / 10 ^ exp10`. -/
structure Dec where
  num : Int
  exp10 : Nat
deriving DecidableEq, Repr

/-- The rational value of a scaled decimal. -/
def Dec.toRat (d : Dec) : ℚ :=
  (d.num : ℚ) / 10 ^ d.exp10

/-- Default location (Muzaffarabad, Azad Kashmir):
`(34.3700, 73.4711)`. -/
def CITY_COORDS : Dec × Dec := (⟨343700, 4⟩, ⟨734711, 4⟩)

/-- Strip a single leading `+`/`-`; returns (isNegative, rest). -/
def stripSign : List Char → Bool × List Char
  | '-' :: cs => (true, cs)
  | '+' :: cs => (false, cs)
  | cs => (false, cs)

def allDigits (cs : List Char) : Bool :=
  cs.all Char.isDigit

def natOfDigits (cs : List Char) : Nat :=
  cs.foldl (fun a c => 10 * a + (c.toNat - 48)) 0

/-- The unsigned mantissa `ddd`, `ddd.ddd`, `ddd.` or `.ddd`, as the
scaled decimal `intDigits·10^k + fracDigits` over `10^k`. -/
def parseMantissa (cs : List Char) : Option Dec :=
  match cs.splitOn '.' with
  | [ip] =>
      if ip ≠ [] ∧ allDigits ip then some ⟨natOfDigits ip, 0⟩ else none
  | [ip, fp] =>
      if (ip ≠ [] ∨ fp ≠ []) ∧ allDigits ip ∧ allDigits fp then
        some ⟨natOfDigits ip * 10 ^ fp.length + natOfDigits fp, fp.length⟩
      else none
  | _ => none

/-- Model of Python's `float(s)` restricted to finite decimal literals. -/
def parseFloat (s : String) : Option Dec :=
  let cs := (pyStrip s).toList
  if cs = [] then none
  else
    let sgn := stripSign cs
    let body := (sgn.2).span (fun c => c != 'e' && c != 'E')
    match parseMantissa body.1 with
    | none => none
    | some m =>
        let signed : Dec → Dec := fun v => if sgn.1 then ⟨-v.num, v.exp10⟩ else v
        match body.2 with
        | [] => some (signed m)
        | _ :: expCs =>
            let esgn := stripSign expCs
            if esgn.2 ≠ [] ∧ allDigits esgn.2 then
              let e := natOfDigits esgn.2
              some (signed (if esgn.1 then ⟨m.num, m.exp10 + e⟩
                            else ⟨m.num * 10 ^ e, m.exp10⟩))
            else none

/-! ## `parse_location_to_coords` (app.py lines 89–102) -/

/-- The numeric branch of `parse_location_to_coords` (app.py lines
92–99): split the text on commas, strip each part, and if there are at
least two parts whose first two both parse as floats, yield them as
`(lat, lon)`. -/
def firstTwoFloats (t : String) : Option (Dec × Dec) :=
  match (commaSplit t).map pyStrip with
  | p0 :: p1 :: _ =>
      match parseFloat p0, parseFloat p1 with
      | some lat, some lon => some (lat, lon)
      | _, _ => none
  | _ => none

/-- `parse_location_to_coords(location_text)`: `None`/`""` fall through
the `if not location_text` guard; otherwise the numeric branch
(`firstTwoFloats`); otherwise a case-insensitive keyword check for the
default city — both of whose branches return the default coordinates. -/
def parse_location_to_coords (location_text : Option String) : Dec × Dec :=
  match location_text with
  | none => CITY_COORDS
  | some t =>
      if t = "" then CITY_COORDS
      else
        match firstTwoFloats t with
        | some c => c
        | none =>
            if strHasSub (asciiLower t) "muzaffarabad"
                || strHasSub (asciiLower t) "azad" then
              CITY_COORDS
            else CITY_COORDS

/-! ## Model of `werkzeug.utils.secure_filename` (external library)

Replace path separators with spaces, split on whitespace and rejoin with
underscores, drop every character outside `[A-Za-z0-9_.-]`, and strip
leading/trailing dots and underscores. -/

def keepFilenameChar (c : Char) : Bool :=
  c.isAlphanum || c == '.' || c == '_' || c == '-'

def stripDotsUnderscores (cs : List Char) : List Char :=
  ((cs.dropWhile (fun c => c == '.' || c == '_')).reverse.dropWhile
    (fun c => c == '.' || c == '_')).reverse

def secure_filename (s : String) : String :=
  let cs := s.toList.map (fun c => if c = '/' then ' ' else c)
  let words := (cs.splitOnP Char.isWhitespace).filter (· ≠ [])
  let joined := (List.intercalate ['_'] words).filter keepFilenameChar
  ⟨stripDotsUnderscores joined⟩

/-! ## Model of `os.path.splitext` (standard library)

The extension starts at the last dot, provided some earlier character of
the (separator-free) name is not itself a dot; an all-leading-dots name
has no extension. -/

/-- Index of the last `.` in `cs`, if any. -/
def lastDotIdx (cs : List Char) : Option Nat :=
  ((cs.enum.filter (fun p => p.2 = '.')).getLast?).map (·.1)

def splitextBase (s : String) : String :=
  let cs := s.toList
  match lastDotIdx cs with
  | none => s
  | some d => if (cs.take d).any (· ≠ '.') then ⟨cs.take d⟩ else s

def splitextExt (s : String) : String :=
  let cs := s.toList
  match lastDotIdx cs with
  | none => ""
  | some d => if (cs.take d).any (· ≠ '.') then ⟨cs.drop d⟩ else ""

/-- The filename's extension in the usual sense: the lowercased text
after the last dot (empty when there is no extension). -/
def fileExtOf (s : String) : String :=
  match (splitextExt s).toList with
  | '.' :: rest => asciiLower ⟨rest⟩
  | _ => ""

/-! ## `save_uploaded_image` (app.py lines 60–85)

PIL is an external collaborator: `decode` models the composite
`Image.open(BytesIO(raw))` + `img.verify()` + re-`open`, returning the
image's format metadata and mode on success and `none` when the bytes do
not decode as a valid image (`UnidentifiedImageError` or any other
failure of the open/verify pass).  A write to the upload store is
modelled as a `SavedFile` value rather than a file-system effect. -/

structure PilImage where
  format? : Option String
  mode : String
deriving DecidableEq, Repr

/-- One file written to the upload store: its name and the encoding
parameters passed to `img.save`. -/
structure SavedFile where
  name : String
  format : Option String
  mode : String
  quality : Option Nat
deriving DecidableEq, Repr

structure SaveOutcome where
  storedName : String
  written : SavedFile
deriving DecidableEq, Repr

instance {α β : Type} [DecidableEq α] [DecidableEq β] :
    DecidableEq (Except α β) := fun x y =>
  match x, y with
  | .error a, .error b =>
      if h : a = b then isTrue (by rw [h])
      else isFalse (by intro he; cases he; exact h rfl)
  | .ok a, .ok b =>
      if h : a = b then isTrue (by rw [h])
      else isFalse (by intro he; cases he; exact h rfl)
  | .error _, .ok _ => isFalse (by intro he; cases he)
  | .ok _, .error _ => isFalse (by intro he; cases he)

/-- `save_uploaded_image(file_storage)`, with the PIL decoder and the
`uuid.uuid4()` token as explicit parameters.  `origFilename?` is
`file_storage.filename` (`none` when absent; `"" or "image"` falsiness
as in the source). -/
def save_uploaded_image (decode : List Nat → Option PilImage) (token : String)
    (origFilename? : Option String) (raw : List Nat) : Except String SaveOutcome :=
  match decode raw with
  | none => .error "Uploaded file is not a valid image"
  | some img =>
      let fmt := img.format?.getD "JPEG"
      let fmtLower := asciiLower fmt
      let ext := if fmtLower = "jpeg" then "jpg"
                 else if fmtLower = "jfif" then "jpg"
                 else fmtLower
      let origGiven := origFilename?.getD ""
      let orig_name := secure_filename (if origGiven = "" then "image" else origGiven)
      let base := splitextBase orig_name
      let filename := token ++ "_" ++ base ++ "." ++ ext
      if ext = "jpg" ∨ ext = "jpeg" then
        .ok { storedName := filename,
              written := { name := filename, format := some "JPEG",
                           mode := "RGB", quality := some 90 } }
      else
        .ok { storedName := filename,
              written := { name := filename, format := img.format?,
                           mode := img.mode, quality := none } }

/-- The files written to the upload store by a `save_uploaded_image`
call: none on the error path, exactly one on success. -/
def writesOf : Except String SaveOutcome → List SavedFile
  | .error _ => []
  | .ok res => [res.written]

/-- The canonical extension computed for a decoded image: detected
format lowercased, `jpeg`/`jfif` collapsed to `jpg` (missing format
metadata defaults to `JPEG`). -/
def canonicalExt (img : PilImage) : String :=
  let fmtLower := asciiLower (img.format?.getD "JPEG")
  if fmtLower = "jpeg" then "jpg"
  else if fmtLower = "jfif" then "jpg"
  else fmtLower

/-! ## Detection invocation (app.py lines 126–141)

The classifier is an external collaborator.  Its observable interaction
with the `try` block is: a stream of bounding-box class indices
(flattened across results), each of which is added to `detected_set` via
`names[int(cls)]` with fallback `str(cls)` — and, possibly, an exception
raised at some point of the stream, which the `except` swallows after
the adds made so far.  `allCls` is the full stream, `failAt = some k`
means an exception interrupts processing after `k` items
(`failAt = none`: the call completes normally). -/

/-- `names[int(cls)]`, falling back to `str(cls)` when the lookup
fails. -/
def labelOfCls (names : Nat → Option String) (c : Nat) : String :=
  (names c).getD (toString c)

/-- The class indices actually processed before the (optional)
exception point. -/
def clsProcessed (allCls : List Nat) (failAt : Option Nat) : List Nat :=
  match failAt with
  | none => allCls
  | some k => allCls.take k

/-- The `detected_set` after the model block, as the sorted list of its
distinct elements (Python's `sorted(detected_set)`): labels collected
before any exception when a model is loaded, the sentinel singleton
otherwise. -/
def detectionSet (modelPresent : Bool) (names : Nat → Option String)
    (allCls : List Nat) (failAt : Option Nat) : List String :=
  if modelPresent then
    List.insertionSort strAsc (((clsProcessed allCls failAt).map (labelOfCls names)).dedup)
  else ["model_missing"]

/-- Python's `sep.join(parts)`. -/
def joinSep (sep : String) : List String → String
  | [] => ""
  | [a] => a
  | a :: b :: t => a ++ sep ++ joinSep sep (b :: t)

/-- `", ".join(sorted(detected_set)) if detected_set else "None"`. -/
def detectedStrOf (s : List String) : String :=
  if s = [] then "None" else joinSep ", " s

/-! ## The `detections` table and the upload route (app.py lines 44–56,
111–154) -/

/-- One row of the `detections` table.  Every column is TEXT;
`location`/`incharge` are stored as NULL when the stripped form text is
empty (`location or None`). -/
structure Row where
  id : String
  filename : String
  detected_classes : Option String
  timestamp : String
  location : Option String
  incharge : Option String
deriving DecidableEq, Repr

inductive HttpResponse where
  | redirect (location : String)
  | clientError (status : Nat) (body : String)
deriving DecidableEq, Repr

/-- The `file` part of the multipart form: `request.files.get("file")`.
Werkzeug's `FileStorage` is truthy iff its filename is non-empty, so the
source's `not file or file.filename == ""` collapses to "absent or empty
filename". -/
structure UploadedFile where
  filename : String
  content : List Nat

structure UploadRequest where
  file : Option UploadedFile
  location : String
  incharge : String

/-- The ambient effects of one upload request: the PIL decoder, whether
the YOLO model loaded at startup (`model is not None`), the classifier's
interaction stream for this image (see `detectionSet`), the two
`uuid.uuid4()` draws, and `datetime.now().strftime(...)`. -/
structure UploadEnv where
  decode : List Nat → Option PilImage
  modelPresent : Bool
  names : Nat → Option String
  allCls : List Nat
  failAt : Option Nat
  fileToken : String
  rowId : String
  now : String

/-- Everything observable about one `POST /upload` request: the HTTP
response, the files written to the upload store, and the rows inserted
into `detections`. -/
structure UploadOutcome where
  response : HttpResponse
  written : List SavedFile
  inserted : List Row
deriving DecidableEq, Repr

/-- The `upload` route (app.py lines 111–154). -/
def upload (env : UploadEnv) (req : UploadRequest) : UploadOutcome :=
  let location := pyStrip req.location
  let incharge := pyStrip req.incharge
  match req.file with
  | none => ⟨.clientError 400 "No file uploaded.", [], []⟩
  | some f =>
      if f.filename = "" then ⟨.clientError 400 "No file uploaded.", [], []⟩
      else
        match save_uploaded_image env.decode env.fileToken (some f.filename) f.content with
        | .error msg => ⟨.clientError 400 msg, [], []⟩
        | .ok res =>
            let dset := detectionSet env.modelPresent env.names env.allCls env.failAt
            let detected_str := detectedStrOf dset
            let row : Row :=
              { id := env.rowId
                filename := res.storedName
                detected_classes := some detected_str
                timestamp := env.now
                location := if location = "" then none else some location
                incharge := if incharge = "" then none else some incharge }
            ⟨.redirect "/analytics", [res.written], [row]⟩

/-! ## Record listing: `SELECT ... ORDER BY timestamp DESC`
(app.py lines 159–162) -/

/-- Descending textual timestamp order between rows (SQLite BINARY
collation on the TEXT column). -/
def rowDesc (a b : Row) : Prop :=
  memLe (bytesOf b.timestamp) (bytesOf a.timestamp) = true

instance : DecidableRel rowDesc := fun a b =>
  inferInstanceAs (Decidable (memLe (bytesOf b.timestamp) (bytesOf a.timestamp) = true))

/-- The store's listing: every stored row, ordered by timestamp
descending. -/
def list_all (rows : List Row) : List Row :=
  List.insertionSort rowDesc rows

/-! ## Analytics aggregation (app.py lines 157–202) -/

inductive SizeCat where
  | small
  | medium
  | large
  | unmatched
deriving DecidableEq, Repr

/-- The if/elif/elif/else chain of the analytics loop on
`(r[2] or "").lower()`: first match wins, in order small → medium →
large. -/
def sizeCatOf (detected : Option String) : SizeCat :=
  let f := asciiLower (detected.getD "")
  if strHasSub f "small" then .small
  else if strHasSub f "medium" then .medium
  else if strHasSub f "large" then .large
  else .unmatched

/-- The display color assigned in the same chain. -/
def colorOf : SizeCat → String
  | .small => "#28a745"
  | .medium => "#ffc107"
  | .large => "#dc3545"
  | .unmatched => "#6c757d"

/-- One step of the counting loop on the `(small, medium, large)`
accumulator. -/
def countsStep (acc : Nat × Nat × Nat) (r : Row) : Nat × Nat × Nat :=
  match sizeCatOf r.detected_classes with
  | .small => (acc.1 + 1, acc.2.1, acc.2.2)
  | .medium => (acc.1, acc.2.1 + 1, acc.2.2)
  | .large => (acc.1, acc.2.1, acc.2.2 + 1)
  | .unmatched => acc

/-- `(small_count, medium_count, large_count)` after the analytics
loop. -/
def counts3 (rows : List Row) : Nat × Nat × Nat :=
  rows.foldl countsStep (0, 0, 0)

/-- One `map_data` entry. -/
structure MapEntry where
  id : String
  filename : String
  detected : Option String
  timestamp : String
  location : Option String
  incharge : Option String
  lat : Dec
  lon : Dec
  color : String
deriving DecidableEq, Repr

/-- The `map_data` entry built for one row:
`parse_location_to_coords(r[4] or "")` plus the loop's color. -/
def mapEntryOf (r : Row) : MapEntry :=
  let coords := parse_location_to_coords (some (r.location.getD ""))
  { id := r.id
    filename := r.filename
    detected := r.detected_classes
    timestamp := r.timestamp
    location := r.location
    incharge := r.incharge
    lat := coords.1
    lon := coords.2
    color := colorOf (sizeCatOf r.detected_classes) }

/-- Everything the `analytics` route passes to the template. -/
structure AnalyticsPage where
  rows : List Row
  small_count : Nat
  medium_count : Nat
  large_count : Nat
  map_data : List MapEntry
  city_coords : Dec × Dec
  city_name : String
deriving Repr

/-- The `analytics` route (app.py lines 157–202), over the current
contents of the `detections` table. -/
def analytics (stored : List Row) : AnalyticsPage :=
  let rows := list_all stored
  let c := counts3 rows
  { rows := rows
    small_count := c.1
    medium_count := c.2.1
    large_count := c.2.2
    map_data := rows.map mapEntryOf
    city_coords := CITY_COORDS
    city_name := CITY_NAME }

/-! ## Timestamps: `datetime.now().strftime("%Y-%m-%d %H:%M:%S")`
(app.py line 144) -/

/-- A wall-clock instant at second precision. -/
structure DT where
  y : Nat
  mo : Nat
  d : Nat
  h : Nat
  mi : Nat
  s : Nat
deriving DecidableEq, Repr

/-- Field bounds guaranteeing the fixed-width zero-padded rendering
(every real `datetime` satisfies them: year 1..9999, the rest below
100). -/
def validDT (t : DT) : Prop :=
  t.y < 10000 ∧ t.mo < 100 ∧ t.d < 100 ∧ t.h < 100 ∧ t.mi < 100 ∧ t.s < 100

instance (t : DT) : Decidable (validDT t) :=
  inferInstanceAs (Decidable (t.y < 10000 ∧ t.mo < 100 ∧ t.d < 100
    ∧ t.h < 100 ∧ t.mi < 100 ∧ t.s < 100))

def digitChar : Nat → Char
  | 0 => '0'
  | 1 => '1'
  | 2 => '2'
  | 3 => '3'
  | 4 => '4'
  | 5 => '5'
  | 6 => '6'
  | 7 => '7'
  | 8 => '8'
  | _ => '9'

/-- Two-digit zero-padded rendering (`%m`, `%d`, `%H`, `%M`, `%S`). -/
def pad2s (n : Nat) : String :=
  ⟨[digitChar (n / 10), digitChar (n % 10)]⟩

/-- Four-digit zero-padded rendering (`%Y`). -/
def pad4s (n : Nat) : String :=
  pad2s (n / 100) ++ pad2s (n % 100)

/-- `strftime("%Y-%m-%d %H:%M:%S")`. -/
def fmtTimestamp (t : DT) : String :=
  pad4s t.y ++ "-" ++ pad2s t.mo ++ "-" ++ pad2s t.d ++ " "
    ++ pad2s t.h ++ ":" ++ pad2s t.mi ++ ":" ++ pad2s t.s

/-- Chronological `≤` on instants: lexicographic on
(year, month, day, hour, minute, second). -/
def dtLeB (a b : DT) : Bool :=
  if a.y ≠ b.y then a.y < b.y
  else if a.mo ≠ b.mo then a.mo < b.mo
  else if a.d ≠ b.d then a.d < b.d
  else if a.h ≠ b.h then a.h < b.h
  else if a.mi ≠ b.mi then a.mi < b.mi
  else a.s ≤ b.s

/-!
# Proofs

Helper lemmas about `save_uploaded_image` and `upload`, then one theorem
per specification claim.
-/

/-- The error path of `save_uploaded_image`: undecodable bytes. -/
lemma save_err (decode : List Nat → Option PilImage) (token : String)
    (fname? : Option String) (raw : List Nat) (h : decode raw = none) :
    save_uploaded_image decode token fname? raw
      = .error "Uploaded file is not a valid image" := by
  unfold save_uploaded_image
  rw [h]

/-- The success path of `save_uploaded_image`, with the branch structure
exposed. -/
lemma save_ok_shape (decode : List Nat → Option PilImage) (token : String)
    (fname? : Option String) (raw : List Nat) (img : PilImage)
    (h : decode raw = some img) :
    save_uploaded_image decode token fname? raw =
      (let ext := canonicalExt img
       let base := splitextBase (secure_filename
         (if fname?.getD "" = "" then "image" else fname?.getD ""))
       let filename := token ++ "_" ++ base ++ "." ++ ext
       if ext = "jpg" ∨ ext = "jpeg" then
         .ok ⟨filename, ⟨filename, some "JPEG", "RGB", some 90⟩⟩
       else
         .ok ⟨filename, ⟨filename, img.format?, img.mode, none⟩⟩) := by
  unfold save_uploaded_image canonicalExt
  rw [h]

/-- The `jpeg`/`jfif`→`jpg` collapse means the canonical extension is
never the string `jpeg`, so the source's `ext in ("jpg", "jpeg")` test
is equivalent to `ext == "jpg"`. -/
lemma canonicalExt_ne_jpeg (img : PilImage) : canonicalExt img ≠ "jpeg" := by
  unfold canonicalExt
  dsimp only
  split_ifs with h1 h2
  · decide
  · decide
  · exact h1

/-- Off the `jpg` branch, the format metadata cannot be missing (a
missing format defaults to `JPEG`, whose canonical extension is `jpg`),
so `img.save(..., format=img.format)` really uses the detected
format. -/
lemma format_some_of_ne_jpg (img : PilImage) (h : canonicalExt img ≠ "jpg") :
    img.format? = some (img.format?.getD "JPEG") := by
  cases hf : img.format? with
  | none =>
      exfalso
      apply h
      unfold canonicalExt
      rw [hf]
      decide
  | some f => rfl

/-- C4: for every byte string that does not decode as a valid image,
`save_uploaded_image` fails with the invalid-image `ValueError` message
and writes nothing to the upload store. -/
theorem c4_invalid_image_no_write (decode : List Nat → Option PilImage)
    (token : String) (fname? : Option String) (raw : List Nat)
    (h : decode raw = none) :
    save_uploaded_image decode token fname? raw
        = .error "Uploaded file is not a valid image"
    ∧ writesOf (save_uploaded_image decode token fname? raw) = [] := by
  have he := save_err decode token fname? raw h
  exact ⟨he, by rw [he]; rfl⟩

/-- Witness for C4 at a concrete non-image payload. -/
theorem c4_witness :
    (fun _ : List Nat => (none : Option PilImage)) [137, 80] = none
    ∧ (save_uploaded_image (fun _ => none)
          "5aefb1da-8c9f-43ef-9f04-cf8c3f2f2c6e" (some "notes.txt") [137, 80]
        = .error "Uploaded file is not a valid image"
      ∧ writesOf (save_uploaded_image (fun _ => none)
          "5aefb1da-8c9f-43ef-9f04-cf8c3f2f2c6e" (some "notes.txt") [137, 80])
        = []) :=
  ⟨rfl, c4_invalid_image_no_write _ _ _ _ rfl⟩

/-- C5: a valid image whose canonical extension is `jpg` is re-encoded
as a three-channel `RGB` JPEG at quality 90, whatever its input mode;
any other canonical extension is saved with the originally detected
format and the mode untouched. -/
theorem c5_jpg_normalisation (decode : List Nat → Option PilImage)
    (token : String) (fname? : Option String) (raw : List Nat)
    (img : PilImage) (h : decode raw = some img) :
    (canonicalExt img = "jpg" →
      ∃ out, save_uploaded_image decode token fname? raw = .ok out
        ∧ out.written.format = some "JPEG"
        ∧ out.written.mode = "RGB"
        ∧ out.written.quality = some 90)
    ∧ (canonicalExt img ≠ "jpg" →
      ∃ out, save_uploaded_image decode token fname? raw = .ok out
        ∧ out.written.format = some (img.format?.getD "JPEG")
        ∧ out.written.mode = img.mode
        ∧ out.written.quality = none) := by
  constructor
  · intro hjpg
    rw [save_ok_shape decode token fname? raw img h]
    dsimp only
    rw [if_pos (Or.inl hjpg)]
    exact ⟨_, rfl, rfl, rfl, rfl⟩
  · intro hne
    rw [save_ok_shape decode token fname? raw img h]
    dsimp only
    have hcond : ¬(canonicalExt img = "jpg" ∨ canonicalExt img = "jpeg") := by
      rintro (hc | hc)
      · exact hne hc
      · exact canonicalExt_ne_jpeg img hc
    rw [if_neg hcond]
    refine ⟨_, rfl, ?_, rfl, rfl⟩
    exact format_some_of_ne_jpg img hne

/-- Witness for C5: an RGBA-mode JPEG input is stored as RGB JPEG at
quality 90; a PNG input keeps format `PNG` and its original mode. -/
theorem c5_witness :
    ((fun _ : List Nat => some (⟨some "JPEG", "RGBA"⟩ : PilImage)) [1]
        = some ⟨some "JPEG", "RGBA"⟩
      ∧ canonicalExt ⟨some "JPEG", "RGBA"⟩ = "jpg"
      ∧ ∃ out, save_uploaded_image (fun _ => some ⟨some "JPEG", "RGBA"⟩)
            "t1" (some "a.png") [1] = .ok out
          ∧ out.written.format = some "JPEG"
          ∧ out.written.mode = "RGB"
          ∧ out.written.quality = some 90)
    ∧ ((fun _ : List Nat => some (⟨some "PNG", "LA"⟩ : PilImage)) [2]
        = some ⟨some "PNG", "LA"⟩
      ∧ canonicalExt ⟨some "PNG", "LA"⟩ ≠ "jpg"
      ∧ ∃ out, save_uploaded_image (fun _ => some ⟨some "PNG", "LA"⟩)
            "t2" (some "b.jpg") [2] = .ok out
          ∧ out.written.format
              = some ((some "PNG" : Option String).getD "JPEG")
          ∧ out.written.mode = "LA"
          ∧ out.written.quality = none) :=
  ⟨⟨rfl, by decide,
    (c5_jpg_normalisation (fun _ => some ⟨some "JPEG", "RGBA"⟩) "t1"
      (some "a.png") [1] ⟨some "JPEG", "RGBA"⟩ rfl).1 (by decide)⟩,
   ⟨rfl, by decide,
    (c5_jpg_normalisation (fun _ => some ⟨some "PNG", "LA"⟩) "t2"
      (some "b.jpg") [2] ⟨some "PNG", "LA"⟩ rfl).2 (by decide)⟩⟩

/-- The shape of a `str(uuid.uuid4())` draw: a 36-character token
(8-4-4-4-12 hex digits and hyphens).  Only the fixed length matters for
filename uniqueness. -/
def isUuidToken (s : String) : Prop := s.length = 36

instance (s : String) : Decidable (isUuidToken s) :=
  inferInstanceAs (Decidable (s.length = 36))

/-- Every successfully stored filename starts with the generated
token: `filename = f"{uuid.uuid4()}_{base}.{ext}"`. -/
lemma storedName_prepends_token (decode : List Nat → Option PilImage)
    (token : String) (fname? : Option String) (raw : List Nat)
    (out : SaveOutcome)
    (h : save_uploaded_image decode token fname? raw = .ok out) :
    ∃ rest, out.storedName = token ++ rest := by
  cases hd : decode raw with
  | none =>
      rw [save_err _ _ _ _ hd] at h
      simp at h
  | some img =>
      rw [save_ok_shape _ _ _ _ _ hd] at h
      dsimp only at h
      by_cases hc : canonicalExt img = "jpg" ∨ canonicalExt img = "jpeg"
      all_goals
        first
        | rw [if_pos hc] at h
        | rw [if_neg hc] at h
        simp only [Except.ok.injEq] at h
        subst h
        refine ⟨"_" ++ (splitextBase (secure_filename
            (if fname?.getD "" = "" then "image" else fname?.getD ""))
            ++ ("." ++ canonicalExt img)), ?_⟩
        simp only [String.append_assoc]

/-- C8: two `save_uploaded_image` calls whose generated uuid tokens
differ store files under distinct names, whatever the uploaded bytes
and original filenames (identical ones included). -/
theorem c8_unique_filenames (decode1 decode2 : List Nat → Option PilImage)
    (t1 t2 : String) (fn1 fn2 : Option String) (raw1 raw2 : List Nat)
    (h1 : isUuidToken t1) (h2 : isUuidToken t2) (hne : t1 ≠ t2) :
    ∀ out1 out2,
      save_uploaded_image decode1 t1 fn1 raw1 = .ok out1 →
      save_uploaded_image decode2 t2 fn2 raw2 = .ok out2 →
      out1.storedName ≠ out2.storedName := by
  intro out1 out2 hs1 hs2 heq
  obtain ⟨r1, e1⟩ := storedName_prepends_token _ _ _ _ _ hs1
  obtain ⟨r2, e2⟩ := storedName_prepends_token _ _ _ _ _ hs2
  rw [e1, e2] at heq
  apply hne
  have hdata : t1.data ++ r1.data = t2.data ++ r2.data := by
    have hc := congrArg String.data heq
    rwa [String.data_append, String.data_append] at hc
  have hlen : t1.data.length = t2.data.length := h1.trans h2.symm
  exact String.ext (List.append_inj_left hdata hlen)

/-- Witness for C8: identical bytes and original filename, two
different tokens, distinct stored names. -/
theorem c8_witness :
    save_uploaded_image (fun _ => some ⟨some "PNG", "RGB"⟩)
        "11111111-2222-3333-4444-555555555551" (some "img.png") [1]
      = .ok ⟨"11111111-2222-3333-4444-555555555551_img.png",
             ⟨"11111111-2222-3333-4444-555555555551_img.png",
              some "PNG", "RGB", none⟩⟩
    ∧ save_uploaded_image (fun _ => some ⟨some "PNG", "RGB"⟩)
        "11111111-2222-3333-4444-555555555552" (some "img.png") [1]
      = .ok ⟨"11111111-2222-3333-4444-555555555552_img.png",
             ⟨"11111111-2222-3333-4444-555555555552_img.png",
              some "PNG", "RGB", none⟩⟩
    ∧ (⟨"11111111-2222-3333-4444-555555555551_img.png",
        ⟨"11111111-2222-3333-4444-555555555551_img.png",
         some "PNG", "RGB", none⟩⟩ : SaveOutcome).storedName
      ≠ (⟨"11111111-2222-3333-4444-555555555552_img.png",
          ⟨"11111111-2222-3333-4444-555555555552_img.png",
           some "PNG", "RGB", none⟩⟩ : SaveOutcome).storedName :=
  ⟨by decide, by decide,
   c8_unique_filenames (fun _ => some ⟨some "PNG", "RGB"⟩)
     (fun _ => some ⟨some "PNG", "RGB"⟩)
     "11111111-2222-3333-4444-555555555551"
     "11111111-2222-3333-4444-555555555552"
     (some "img.png") (some "img.png") [1] [1]
     (by decide) (by decide) (by decide) _ _ (by decide) (by decide)⟩

/-- C9: a missing file part or an empty filename yields status 400 with
body "No file uploaded." and neither a file write nor a row insert; a
file whose bytes fail image validation yields status 400 carrying the
validator's message, again with no write and no insert. -/
theorem c9_upload_errors (env : UploadEnv) (req : UploadRequest) :
    (req.file = none →
      upload env req = ⟨.clientError 400 "No file uploaded.", [], []⟩)
    ∧ (∀ f, req.file = some f → f.filename = "" →
      upload env req = ⟨.clientError 400 "No file uploaded.", [], []⟩)
    ∧ (∀ f, req.file = some f → f.filename ≠ "" → env.decode f.content = none →
      upload env req
        = ⟨.clientError 400 "Uploaded file is not a valid image", [], []⟩) := by
  refine ⟨fun hf => ?_, fun f hf he => ?_, fun f hf hne hd => ?_⟩
  · unfold upload
    rw [hf]
  · unfold upload
    rw [hf]
    dsimp only
    rw [if_pos he]
  · unfold upload
    rw [hf]
    dsimp only
    rw [if_neg hne, save_err _ _ _ _ hd]

/-- Witness for C9 at three concrete failing requests. -/
theorem c9_witness :
    upload ⟨fun _ => none, true, fun _ => none, [], none, "t", "r", "now"⟩
        ⟨none, "", ""⟩
      = ⟨.clientError 400 "No file uploaded.", [], []⟩
    ∧ upload ⟨fun _ => none, true, fun _ => none, [], none, "t", "r", "now"⟩
        ⟨some ⟨"", [1]⟩, "", ""⟩
      = ⟨.clientError 400 "No file uploaded.", [], []⟩
    ∧ upload ⟨fun _ => none, true, fun _ => none, [], none, "t", "r", "now"⟩
        ⟨some ⟨"a.png", [1]⟩, "", ""⟩
      = ⟨.clientError 400 "Uploaded file is not a valid image", [], []⟩ :=
  ⟨(c9_upload_errors _ _).1 rfl,
   (c9_upload_errors _ _).2.1 ⟨"", [1]⟩ rfl rfl,
   (c9_upload_errors _ _).2.2 ⟨"a.png", [1]⟩ rfl (by decide) rfl⟩

/-- C2: `parse_location_to_coords` is total and resolves: `None`/empty
to the default city coordinates; `"34.5, 73.9"` to `(34.5, 73.9)`; and
every other non-empty text whose first two comma-separated parts do not
both parse as floats to the default city coordinates — whether or not
the text mentions the default city (e.g. both `"garbage text"` and
`"Muzaffarabad city center"` resolve to the default). -/
theorem c2_location_resolution :
    parse_location_to_coords none = CITY_COORDS
    ∧ parse_location_to_coords (some "") = CITY_COORDS
    ∧ ((parse_location_to_coords (some "34.5, 73.9")).1.toRat,
        (parse_location_to_coords (some "34.5, 73.9")).2.toRat)
      = ((34.5 : ℚ), (73.9 : ℚ))
    ∧ parse_location_to_coords (some "garbage text") = CITY_COORDS
    ∧ parse_location_to_coords (some "Muzaffarabad city center") = CITY_COORDS
    ∧ (∀ t : String, t ≠ "" → firstTwoFloats t = none →
        parse_location_to_coords (some t) = CITY_COORDS)
    ∧ (∀ (t : String) (c : Dec × Dec), t ≠ "" → firstTwoFloats t = some c →
        parse_location_to_coords (some t) = c) := by
  refine ⟨rfl, by decide, ?_, by decide, by decide, ?_, ?_⟩
  · have h : parse_location_to_coords (some "34.5, 73.9")
        = (⟨345, 1⟩, ⟨739, 1⟩) := by decide
    rw [h]
    norm_num [Dec.toRat]
  · intro t ht hft
    unfold parse_location_to_coords
    dsimp only
    rw [if_neg ht, hft]
    exact ite_self _
  · intro t c ht hft
    unfold parse_location_to_coords
    dsimp only
    rw [if_neg ht, hft]

/-- Witness for C2 at a concrete unparsable text and a concrete
coordinate text. -/
theorem c2_witness :
    ("xyz" : String) ≠ "" ∧ firstTwoFloats "xyz" = none
    ∧ parse_location_to_coords (some "xyz") = CITY_COORDS
    ∧ ("1.5,2.5" : String) ≠ ""
    ∧ firstTwoFloats "1.5,2.5" = some (⟨15, 1⟩, ⟨25, 1⟩)
    ∧ parse_location_to_coords (some "1.5,2.5") = (⟨15, 1⟩, ⟨25, 1⟩) :=
  ⟨by decide, by decide,
   c2_location_resolution.2.2.2.2.2.1 "xyz" (by decide) (by decide),
   by decide, by decide,
   c2_location_resolution.2.2.2.2.2.2 "1.5,2.5" (⟨15, 1⟩, ⟨25, 1⟩)
     (by decide) (by decide)⟩

/-- Appending one row to the listing advances the counting loop by one
step. -/
lemma counts3_append (rows : List Row) (r : Row) :
    counts3 (rows ++ [r]) = countsStep (counts3 rows) r := by
  simp [counts3, List.foldl_append]

/-- C3: the three analytics size counts bucket each record by
case-insensitive substring match on `detected_classes`, first match
winning in order small → medium → large; a record matching none of the
three changes no count and is colored gray, while small/medium/large
matches are colored green/amber/red. -/
theorem c3_size_buckets (rows : List Row) (r : Row) :
    (strHasSub (asciiLower (r.detected_classes.getD "")) "small" = true →
      (counts3 (rows ++ [r])).1 = (counts3 rows).1 + 1
      ∧ (counts3 (rows ++ [r])).2.1 = (counts3 rows).2.1
      ∧ (counts3 (rows ++ [r])).2.2 = (counts3 rows).2.2
      ∧ (mapEntryOf r).color = "#28a745")
    ∧ (strHasSub (asciiLower (r.detected_classes.getD "")) "small" = false →
       strHasSub (asciiLower (r.detected_classes.getD "")) "medium" = true →
      (counts3 (rows ++ [r])).1 = (counts3 rows).1
      ∧ (counts3 (rows ++ [r])).2.1 = (counts3 rows).2.1 + 1
      ∧ (counts3 (rows ++ [r])).2.2 = (counts3 rows).2.2
      ∧ (mapEntryOf r).color = "#ffc107")
    ∧ (strHasSub (asciiLower (r.detected_classes.getD "")) "small" = false →
       strHasSub (asciiLower (r.detected_classes.getD "")) "medium" = false →
       strHasSub (asciiLower (r.detected_classes.getD "")) "large" = true →
      (counts3 (rows ++ [r])).1 = (counts3 rows).1
      ∧ (counts3 (rows ++ [r])).2.1 = (counts3 rows).2.1
      ∧ (counts3 (rows ++ [r])).2.2 = (counts3 rows).2.2 + 1
      ∧ (mapEntryOf r).color = "#dc3545")
    ∧ (strHasSub (asciiLower (r.detected_classes.getD "")) "small" = false →
       strHasSub (asciiLower (r.detected_classes.getD "")) "medium" = false →
       strHasSub (asciiLower (r.detected_classes.getD "")) "large" = false →
      counts3 (rows ++ [r]) = counts3 rows
      ∧ (mapEntryOf r).color = "#6c757d") := by
  refine ⟨fun h1 => ?_, fun h1 h2 => ?_, fun h1 h2 h3 => ?_, fun h1 h2 h3 => ?_⟩
  · have hcat : sizeCatOf r.detected_classes = .small := by
      simp [sizeCatOf, h1]
    rw [counts3_append]
    simp [countsStep, hcat, mapEntryOf, colorOf]
  · have hcat : sizeCatOf r.detected_classes = .medium := by
      simp [sizeCatOf, h1, h2]
    rw [counts3_append]
    simp [countsStep, hcat, mapEntryOf, colorOf]
  · have hcat : sizeCatOf r.detected_classes = .large := by
      simp [sizeCatOf, h1, h2, h3]
    rw [counts3_append]
    simp [countsStep, hcat, mapEntryOf, colorOf]
  · have hcat : sizeCatOf r.detected_classes = .unmatched := by
      simp [sizeCatOf, h1, h2, h3]
    rw [counts3_append]
    simp [countsStep, hcat, mapEntryOf, colorOf]

/-- Witness for C3: a `"small-crack"` record bumps only the small
count and is green; a `"None"` record changes nothing and is gray. -/
theorem c3_witness :
    strHasSub (asciiLower ((some "small-crack" : Option String).getD ""))
        "small" = true
    ∧ ((counts3 ([] ++ [⟨"i1", "f1", some "small-crack", "t1", none, none⟩])).1
        = (counts3 []).1 + 1
      ∧ (counts3 ([] ++ [⟨"i1", "f1", some "small-crack", "t1", none, none⟩])).2.1
        = (counts3 []).2.1
      ∧ (counts3 ([] ++ [⟨"i1", "f1", some "small-crack", "t1", none, none⟩])).2.2
        = (counts3 []).2.2
      ∧ (mapEntryOf ⟨"i1", "f1", some "small-crack", "t1", none, none⟩).color
        = "#28a745")
    ∧ (counts3 ([] ++ [⟨"i2", "f2", some "None", "t2", none, none⟩])
        = counts3 []
      ∧ (mapEntryOf ⟨"i2", "f2", some "None", "t2", none, none⟩).color
        = "#6c757d") :=
  ⟨by decide,
   (c3_size_buckets [] ⟨"i1", "f1", some "small-crack", "t1", none, none⟩).1
     (by decide),
   (c3_size_buckets [] ⟨"i2", "f2", some "None", "t2", none, none⟩).2.2.2
     (by decide) (by decide) (by decide)⟩

/-- A decodable upload always saves successfully. -/
lemma save_ok_exists (decode : List Nat → Option PilImage) (token : String)
    (fname? : Option String) (raw : List Nat) (img : PilImage)
    (h : decode raw = some img) :
    ∃ out, save_uploaded_image decode token fname? raw = .ok out := by
  rw [save_ok_shape _ _ _ _ _ h]
  dsimp only
  by_cases hc : canonicalExt img = "jpg" ∨ canonicalExt img = "jpeg"
  · rw [if_pos hc]; exact ⟨_, rfl⟩
  · rw [if_neg hc]; exact ⟨_, rfl⟩

/-- The success path of the upload route: redirect, one file written,
one row inserted, with the row's fields as built at app.py line 146. -/
lemma upload_of_save_ok (env : UploadEnv) (req : UploadRequest)
    (f : UploadedFile) (out : SaveOutcome) (hf : req.file = some f)
    (hn : f.filename ≠ "")
    (hs : save_uploaded_image env.decode env.fileToken (some f.filename)
            f.content = .ok out) :
    upload env req =
      ⟨.redirect "/analytics", [out.written],
        [{ id := env.rowId
           filename := out.storedName
           detected_classes := some (detectedStrOf
             (detectionSet env.modelPresent env.names env.allCls env.failAt))
           timestamp := env.now
           location := if pyStrip req.location = "" then none
                       else some (pyStrip req.location)
           incharge := if pyStrip req.incharge = "" then none
                       else some (pyStrip req.incharge) }]⟩ := by
  unfold upload
  rw [hf]
  dsimp only
  rw [if_neg hn, hs]

/-- The invalid-image path of the upload route. -/
lemma upload_invalid_image (env : UploadEnv) (req : UploadRequest)
    (f : UploadedFile) (hf : req.file = some f) (hn : f.filename ≠ "")
    (hd : env.decode f.content = none) :
    upload env req
      = ⟨.clientError 400 "Uploaded file is not a valid image", [], []⟩ := by
  unfold upload
  rw [hf]
  dsimp only
  rw [if_neg hn, save_err _ _ _ _ hd]

/-- A joined detection string is empty only for the degenerate
one-empty-label set `{""}`. -/
lemma detectedStrOf_ne_empty (s : List String) (h : s ≠ [""]) :
    detectedStrOf s ≠ "" := by
  match s with
  | [] => decide
  | [a] =>
      intro hc
      simp only [detectedStrOf, joinSep] at hc
      rw [if_neg (by simp)] at hc
      exact h (by rw [hc])
  | a :: b :: t =>
      intro hc
      simp only [detectedStrOf] at hc
      rw [if_neg (by simp)] at hc
      have hd2 := congrArg String.data hc
      simp only [joinSep, String.data_append] at hd2
      simp at hd2

/-- C1 as stated fails on one degenerate input: a classifier whose
name table maps the detected class index to the empty string yields a
row whose stored `detected_classes` is the empty string (`", ".join`
over the one-element set `{""}`). -/
theorem c1_counterexample :
    (upload
        ⟨fun _ => some ⟨some "PNG", "RGB"⟩, true, fun _ => some "", [0], none,
         "41f8b3a2-aaaa-bbbb-cccc-000000000000", "row-id",
         "2024-01-02 03:04:05"⟩
        ⟨some ⟨"a.png", [1]⟩, "", ""⟩).inserted.map Row.detected_classes
      = [some ""] := by decide

/-- C1 amended: every inserted row stores `detected_classes` as the
comma-separated, sorted join of the distinct labels, `"None"` for an
empty detection set, the sentinel `model_missing` when no classifier is
configured; it is never NULL, and it is non-empty unless the detection
set is exactly the degenerate one-empty-label set `{""}`. -/
theorem c1_detected_classes (env : UploadEnv) (req : UploadRequest)
    (f : UploadedFile) (img : PilImage) (hf : req.file = some f)
    (hn : f.filename ≠ "") (hd : env.decode f.content = some img) :
    ∃ r, (upload env req).inserted = [r]
      ∧ r.detected_classes = some (detectedStrOf
          (detectionSet env.modelPresent env.names env.allCls env.failAt))
      ∧ (detectionSet env.modelPresent env.names env.allCls env.failAt = [] →
          r.detected_classes = some "None")
      ∧ (env.modelPresent = false → r.detected_classes = some "model_missing")
      ∧ r.detected_classes ≠ none
      ∧ (detectionSet env.modelPresent env.names env.allCls env.failAt ≠ [""] →
          r.detected_classes ≠ some "") := by
  obtain ⟨out, hs⟩ :=
    save_ok_exists env.decode env.fileToken (some f.filename) f.content img hd
  rw [upload_of_save_ok env req f out hf hn hs]
  refine ⟨_, rfl, rfl, fun hempty => ?_, fun hmp => ?_, by simp, fun hdeg => ?_⟩
  · rw [hempty]; rfl
  · rw [hmp]; rfl
  · intro hcontra
    exact detectedStrOf_ne_empty _ hdeg (Option.some.inj hcontra)

/-- Witness for C1 (amended) at a concrete run with one detection. -/
theorem c1_witness :
    (⟨some ⟨"a.png", [1]⟩, "", ""⟩ : UploadRequest).file = some ⟨"a.png", [1]⟩
    ∧ (⟨"a.png", [1]⟩ : UploadedFile).filename ≠ ""
    ∧ (∃ r,
        (upload
            ⟨fun _ => some ⟨some "PNG", "RGB"⟩, true, fun _ => some "bottle",
             [0], none, "tok", "rid", "ts"⟩
            ⟨some ⟨"a.png", [1]⟩, "", ""⟩).inserted = [r]
        ∧ r.detected_classes = some (detectedStrOf
            (detectionSet true (fun _ => some "bottle") [0] none))
        ∧ (detectionSet true (fun _ => some "bottle") [0] none = [] →
            r.detected_classes = some "None")
        ∧ (true = false → r.detected_classes = some "model_missing")
        ∧ r.detected_classes ≠ none
        ∧ (detectionSet true (fun _ => some "bottle") [0] none ≠ [""] →
            r.detected_classes ≠ some "")) :=
  ⟨rfl, by decide,
   c1_detected_classes
     ⟨fun _ => some ⟨some "PNG", "RGB"⟩, true, fun _ => some "bottle",
      [0], none, "tok", "rid", "ts"⟩
     ⟨some ⟨"a.png", [1]⟩, "", ""⟩ ⟨"a.png", [1]⟩ ⟨some "PNG", "RGB"⟩
     rfl (by decide) rfl⟩

/-- C6 as stated fails when the exception interrupts the classifier
loop after a label has already been added: here inference fails after
one item, yet the inserted row stores that label, not `"None"`. -/
theorem c6_counterexample :
    (upload
        ⟨fun _ => some ⟨some "PNG", "RGB"⟩, true,
         (fun n => if n = 0 then some "bottle" else none), [0, 17], some 1,
         "tok", "rid", "ts"⟩
        ⟨some ⟨"a.png", [1]⟩, "", ""⟩).inserted.map Row.detected_classes
      = [some "bottle"] := by decide

/-- C6 amended: an inference failure never escapes the route — the
request still redirects and inserts exactly one row — and the detection
set after a failure is exactly the one a clean run over the
already-processed prefix would give (so a failure of the inference call
itself, before any label, yields `"None"`); a missing classifier yields
the sentinel row. -/
theorem c6_inference_containment (env : UploadEnv) (req : UploadRequest)
    (f : UploadedFile) (img : PilImage) (hf : req.file = some f)
    (hn : f.filename ≠ "") (hd : env.decode f.content = some img) :
    (upload env req).response = .redirect "/analytics"
    ∧ (upload env req).inserted.length = 1
    ∧ (∀ k, env.failAt = some k →
        detectionSet env.modelPresent env.names env.allCls env.failAt
          = detectionSet env.modelPresent env.names (env.allCls.take k) none)
    ∧ (env.modelPresent = true → env.failAt = some 0 →
        ∃ r, (upload env req).inserted = [r]
          ∧ r.detected_classes = some "None")
    ∧ (env.modelPresent = false →
        ∃ r, (upload env req).inserted = [r]
          ∧ r.detected_classes = some "model_missing") := by
  obtain ⟨out, hs⟩ :=
    save_ok_exists env.decode env.fileToken (some f.filename) f.content img hd
  rw [upload_of_save_ok env req f out hf hn hs]
  refine ⟨rfl, rfl, fun k hk => ?_, fun hmp hk0 => ?_, fun hmp => ?_⟩
  · unfold detectionSet clsProcessed
    rw [hk]
  · refine ⟨_, rfl, ?_⟩
    rw [hmp, hk0]
    rfl
  · refine ⟨_, rfl, ?_⟩
    rw [hmp]
    rfl

/-- Witness for C6 (amended) at a failure-at-the-call run. -/
theorem c6_witness :
    (upload
        ⟨fun _ => some ⟨some "PNG", "RGB"⟩, true, fun _ => some "bottle",
         [0, 1], some 0, "tok", "rid", "ts"⟩
        ⟨some ⟨"a.png", [1]⟩, "", ""⟩).response = .redirect "/analytics"
    ∧ (upload
        ⟨fun _ => some ⟨some "PNG", "RGB"⟩, true, fun _ => some "bottle",
         [0, 1], some 0, "tok", "rid", "ts"⟩
        ⟨some ⟨"a.png", [1]⟩, "", ""⟩).inserted.length = 1
    ∧ (∃ r,
        (upload
            ⟨fun _ => some ⟨some "PNG", "RGB"⟩, true, fun _ => some "bottle",
             [0, 1], some 0, "tok", "rid", "ts"⟩
            ⟨some ⟨"a.png", [1]⟩, "", ""⟩).inserted = [r]
        ∧ r.detected_classes = some "None") :=
  (fun h => ⟨h.1, h.2.1, h.2.2.2.1 rfl rfl⟩)
    (c6_inference_containment
      ⟨fun _ => some ⟨some "PNG", "RGB"⟩, true, fun _ => some "bottle",
       [0, 1], some 0, "tok", "rid", "ts"⟩
      ⟨some ⟨"a.png", [1]⟩, "", ""⟩ ⟨"a.png", [1]⟩ ⟨some "PNG", "RGB"⟩
      rfl (by decide) rfl)

/-- C10: no route consults the allowed-extension sets — bytes that
decode are accepted and stored even under a filename whose extension is
outside `ALLOWED_IMAGE_EXTENSIONS` (or absent), and bytes that do not
decode are rejected even under an allowed image extension. -/
theorem c10_extension_sets_unused :
    (∀ (env : UploadEnv) (req : UploadRequest) (f : UploadedFile)
        (img : PilImage),
      req.file = some f → f.filename ≠ "" →
      fileExtOf f.filename ∉ ALLOWED_IMAGE_EXTENSIONS →
      env.decode f.content = some img →
      (upload env req).response = .redirect "/analytics"
        ∧ (upload env req).inserted.length = 1
        ∧ (upload env req).written.length = 1)
    ∧ (∀ (env : UploadEnv) (req : UploadRequest) (f : UploadedFile),
      req.file = some f → f.filename ≠ "" →
      fileExtOf f.filename ∈ ALLOWED_IMAGE_EXTENSIONS →
      env.decode f.content = none →
      (upload env req).response
          = .clientError 400 "Uploaded file is not a valid image"
        ∧ (upload env req).inserted = []
        ∧ (upload env req).written = []) := by
  constructor
  · intro env req f img hf hn _ hd
    obtain ⟨out, hs⟩ :=
      save_ok_exists env.decode env.fileToken (some f.filename) f.content img hd
    rw [upload_of_save_ok env req f out hf hn hs]
    exact ⟨rfl, rfl, rfl⟩
  · intro env req f hf hn _ hd
    rw [upload_invalid_image env req f hf hn hd]
    exact ⟨rfl, rfl, rfl⟩

/-- Witness for C10: a decodable payload named `payload.txt` is
accepted; an undecodable payload named `img.png` is rejected. -/
theorem c10_witness :
    (fileExtOf "payload.txt" ∉ ALLOWED_IMAGE_EXTENSIONS
      ∧ (upload
          ⟨fun _ => some ⟨some "PNG", "RGB"⟩, false, fun _ => none, [], none,
           "tok", "rid", "ts"⟩
          ⟨some ⟨"payload.txt", [1]⟩, "", ""⟩).response
        = .redirect "/analytics"
      ∧ (upload
          ⟨fun _ => some ⟨some "PNG", "RGB"⟩, false, fun _ => none, [], none,
           "tok", "rid", "ts"⟩
          ⟨some ⟨"payload.txt", [1]⟩, "", ""⟩).inserted.length = 1)
    ∧ (fileExtOf "img.png" ∈ ALLOWED_IMAGE_EXTENSIONS
      ∧ (upload
          ⟨fun _ => none, false, fun _ => none, [], none,
           "tok", "rid", "ts"⟩
          ⟨some ⟨"img.png", [1]⟩, "", ""⟩).response
        = .clientError 400 "Uploaded file is not a valid image"
      ∧ (upload
          ⟨fun _ => none, false, fun _ => none, [], none,
           "tok", "rid", "ts"⟩
          ⟨some ⟨"img.png", [1]⟩, "", ""⟩).inserted = []) :=
  ⟨⟨by decide,
    (fun h => ⟨h.1, h.2.1⟩)
      (c10_extension_sets_unused.1
        ⟨fun _ => some ⟨some "PNG", "RGB"⟩, false, fun _ => none, [], none,
         "tok", "rid", "ts"⟩
        ⟨some ⟨"payload.txt", [1]⟩, "", ""⟩ ⟨"payload.txt", [1]⟩
        ⟨some "PNG", "RGB"⟩ rfl (by decide) (by decide) rfl)⟩,
   ⟨by decide,
    (fun h => ⟨h.1, h.2.1⟩)
      (c10_extension_sets_unused.2
        ⟨fun _ => none, false, fun _ => none, [], none, "tok", "rid", "ts"⟩
        ⟨some ⟨"img.png", [1]⟩, "", ""⟩ ⟨"img.png", [1]⟩
        rfl (by decide) (by decide) rfl)⟩⟩

/-! ## Ordering lemmas for the timestamp listing (C7) -/

lemma memLe_total : ∀ xs ys : List Nat, memLe xs ys = true ∨ memLe ys xs = true
  | [], _ => Or.inl rfl
  | _ :: _, [] => Or.inr rfl
  | a :: as, b :: bs => by
      rcases Nat.lt_trichotomy a b with h | h | h
      · left; simp [memLe, h]
      · subst h
        have ih := memLe_total as bs
        simpa [memLe, Nat.lt_irrefl] using ih
      · right; simp [memLe, h]

lemma memLe_trans : ∀ xs ys zs : List Nat,
    memLe xs ys = true → memLe ys zs = true → memLe xs zs = true
  | [], _, _, _, _ => rfl
  | _ :: _, [], _, h1, _ => by simp [memLe] at h1
  | _ :: _, _ :: _, [], _, h2 => by simp [memLe] at h2
  | a :: as, b :: bs, c :: cs, h1, h2 => by
      simp only [memLe] at h1 h2 ⊢
      split_ifs at h1 h2 ⊢ <;>
        first
          | rfl
          | omega
          | simp at h1
          | simp at h2
          | exact memLe_trans as bs cs h1 h2

lemma memLe_cons_same (a : Nat) (xs ys : List Nat) :
    memLe (a :: xs) (a :: ys) = memLe xs ys := by
  simp only [memLe]
  rw [if_neg (Nat.lt_irrefl a), if_neg (Nat.lt_irrefl a)]

lemma memLe_append_same : ∀ (xs us vs : List Nat),
    memLe (xs ++ us) (xs ++ vs) = memLe us vs
  | [], _, _ => rfl
  | a :: as, us, vs => by
      simp only [List.cons_append]
      rw [memLe_cons_same]
      exact memLe_append_same as us vs

lemma memLe_append_of_ne : ∀ (xs ys us vs : List Nat),
    xs.length = ys.length → xs ≠ ys →
    memLe (xs ++ us) (ys ++ vs) = memLe xs ys
  | [], [], _, _, _, hne => absurd rfl hne
  | [], _ :: _, _, _, hl, _ => by simp at hl
  | _ :: _, [], _, _, hl, _ => by simp at hl
  | a :: as, b :: bs, us, vs, hl, hne => by
      simp only [List.cons_append, memLe]
      by_cases hab : a < b
      · rw [if_pos hab, if_pos hab]
      · rw [if_neg hab, if_neg hab]
        by_cases hba : b < a
        · rw [if_pos hba, if_pos hba]
        · rw [if_neg hba, if_neg hba]
          have heq : a = b := by omega
          subst heq
          exact memLe_append_of_ne as bs us vs (by simpa using hl)
            (fun h => hne (by rw [h]))

/-- Equal-length leading blocks: the block decides unless equal. -/
lemma memLe_block (xs ys us vs : List Nat) (h : xs.length = ys.length) :
    memLe (xs ++ us) (ys ++ vs)
      = if xs = ys then memLe us vs else memLe xs ys := by
  split_ifs with he
  · subst he; exact memLe_append_same xs us vs
  · exact memLe_append_of_ne xs ys us vs h he

/-- Code points of a two-digit zero-padded numeral. -/
def pad2B (n : Nat) : List Nat := [48 + n / 10, 48 + n % 10]

/-- Code points of a four-digit zero-padded numeral. -/
def pad4B (n : Nat) : List Nat := pad2B (n / 100) ++ pad2B (n % 100)

/-- Code points of `strftime("%Y-%m-%d %H:%M:%S")` output
(45 = `-`, 32 = space, 58 = `:`). -/
def fmtBytes (t : DT) : List Nat :=
  pad4B t.y ++ 45 :: (pad2B t.mo ++ 45 :: (pad2B t.d
    ++ 32 :: (pad2B t.h ++ 58 :: (pad2B t.mi ++ 58 :: pad2B t.s))))

lemma pad2B_le {a b : Nat} (_ha : a < 100) (_hb : b < 100) :
    (memLe (pad2B a) (pad2B b) = true) ↔ a ≤ b := by
  simp only [pad2B, memLe]
  split_ifs <;> simp <;> omega

lemma pad2B_eq {a b : Nat} (_ha : a < 100) (_hb : b < 100) :
    pad2B a = pad2B b ↔ a = b := by
  constructor
  · intro h
    simp only [pad2B, List.cons.injEq] at h
    omega
  · rintro rfl; rfl

lemma pad4B_le {a b : Nat} (ha : a < 10000) (hb : b < 10000) :
    (memLe (pad4B a) (pad4B b) = true) ↔ a ≤ b := by
  unfold pad4B
  rw [memLe_block _ _ _ _ (by rfl)]
  split_ifs with he
  · rw [pad2B_le (by omega) (by omega)]
    have hq : a / 100 = b / 100 := (pad2B_eq (by omega) (by omega)).mp he
    omega
  · rw [pad2B_le (by omega) (by omega)]
    have hq : a / 100 ≠ b / 100 :=
      fun h => he ((pad2B_eq (by omega) (by omega)).mpr h)
    omega

lemma pad4B_eq {a b : Nat} (ha : a < 10000) (hb : b < 10000) :
    pad4B a = pad4B b ↔ a = b := by
  constructor
  · intro h
    have h2 := List.append_inj h (by rfl)
    have e1 := (pad2B_eq (show a / 100 < 100 by omega) (by omega)).mp h2.1
    have e2 := (pad2B_eq (show a % 100 < 100 by omega) (by omega)).mp h2.2
    omega
  · rintro rfl; rfl

lemma bytesOf_append (s t : String) :
    bytesOf (s ++ t) = bytesOf s ++ bytesOf t := by
  simp [bytesOf, String.toList, String.data_append]

lemma digitChar_toNat {n : Nat} (h : n < 10) : (digitChar n).toNat = 48 + n := by
  interval_cases n <;> decide

lemma bytesOf_pad2s {n : Nat} (h : n < 100) : bytesOf (pad2s n) = pad2B n := by
  simp only [bytesOf, pad2s, pad2B, String.toList, List.map]
  rw [digitChar_toNat (by omega), digitChar_toNat (by omega)]

lemma bytesOf_pad4s {n : Nat} (h : n < 10000) :
    bytesOf (pad4s n) = pad4B n := by
  unfold pad4s pad4B
  rw [bytesOf_append, bytesOf_pad2s (by omega), bytesOf_pad2s (by omega)]

lemma bytesOf_fmtTimestamp {t : DT} (h : validDT t) :
    bytesOf (fmtTimestamp t) = fmtBytes t := by
  obtain ⟨h1, h2, h3, h4, h5, h6⟩ := h
  unfold fmtTimestamp fmtBytes
  rw [bytesOf_append, bytesOf_append, bytesOf_append, bytesOf_append,
      bytesOf_append, bytesOf_append, bytesOf_append, bytesOf_append,
      bytesOf_append, bytesOf_append,
      bytesOf_pad4s h1, bytesOf_pad2s h2, bytesOf_pad2s h3, bytesOf_pad2s h4,
      bytesOf_pad2s h5, bytesOf_pad2s h6]
  have hb1 : bytesOf "-" = [45] := by decide
  have hb2 : bytesOf " " = [32] := by decide
  have hb3 : bytesOf ":" = [58] := by decide
  rw [hb1, hb2, hb3]
  simp [List.append_assoc]

/-- On fixed-format timestamps, byte order is chronological order. -/
lemma memLe_fmtBytes {t1 t2 : DT} (h1 : validDT t1) (h2 : validDT t2) :
    (memLe (fmtBytes t1) (fmtBytes t2) = true) ↔ dtLeB t1 t2 = true := by
  obtain ⟨a1, a2, a3, a4, a5, a6⟩ := h1
  obtain ⟨b1, b2, b3, b4, b5, b6⟩ := h2
  unfold fmtBytes dtLeB
  rw [memLe_block _ _ _ _ (by rfl)]
  by_cases hy : t1.y = t2.y
  · rw [if_pos ((pad4B_eq a1 b1).mpr hy), if_neg (fun hk => hk hy),
      memLe_cons_same, memLe_block _ _ _ _ (by rfl)]
    by_cases hmo : t1.mo = t2.mo
    · rw [if_pos ((pad2B_eq a2 b2).mpr hmo), if_neg (fun hk => hk hmo),
        memLe_cons_same, memLe_block _ _ _ _ (by rfl)]
      by_cases hd : t1.d = t2.d
      · rw [if_pos ((pad2B_eq a3 b3).mpr hd), if_neg (fun hk => hk hd),
          memLe_cons_same, memLe_block _ _ _ _ (by rfl)]
        by_cases hh : t1.h = t2.h
        · rw [if_pos ((pad2B_eq a4 b4).mpr hh), if_neg (fun hk => hk hh),
            memLe_cons_same, memLe_block _ _ _ _ (by rfl)]
          by_cases hmi : t1.mi = t2.mi
          · rw [if_pos ((pad2B_eq a5 b5).mpr hmi), if_neg (fun hk => hk hmi),
              memLe_cons_same, pad2B_le a6 b6]
            simp
          · rw [if_neg (fun hk => hmi ((pad2B_eq a5 b5).mp hk)),
              if_pos hmi, pad2B_le a5 b5]
            simp only [decide_eq_true_eq]
            omega
        · rw [if_neg (fun hk => hh ((pad2B_eq a4 b4).mp hk)),
            if_pos hh, pad2B_le a4 b4]
          simp only [decide_eq_true_eq]
          omega
      · rw [if_neg (fun hk => hd ((pad2B_eq a3 b3).mp hk)),
          if_pos hd, pad2B_le a3 b3]
        simp only [decide_eq_true_eq]
        omega
    · rw [if_neg (fun hk => hmo ((pad2B_eq a2 b2).mp hk)),
        if_pos hmo, pad2B_le a2 b2]
      simp only [decide_eq_true_eq]
      omega
  · rw [if_neg (fun hk => hy ((pad4B_eq a1 b1).mp hk)),
      if_pos hy, pad4B_le a1 b1]
    simp only [decide_eq_true_eq]
    omega

instance : IsTotal Row rowDesc :=
  ⟨fun a b => memLe_total (bytesOf b.timestamp) (bytesOf a.timestamp)⟩

instance : IsTrans Row rowDesc :=
  ⟨fun _ _ _ hab hbc => memLe_trans _ _ _ hbc hab⟩

/-- C7: the store's listing is a permutation of all rows (no filtering,
no pagination), sorted by textual timestamp descending; and because the
timestamps are fixed-format `YYYY-MM-DD HH:MM:SS` renderings, any two
listed rows with well-formed timestamps are also in reverse
chronological order, newest first. -/
theorem c7_listing_order (rows : List Row) :
    (list_all rows).Perm rows
    ∧ (list_all rows).Sorted rowDesc
    ∧ (list_all rows).Pairwise (fun a b =>
        ∀ ta tb, validDT ta → validDT tb →
          a.timestamp = fmtTimestamp ta → b.timestamp = fmtTimestamp tb →
          dtLeB tb ta = true) := by
  refine ⟨List.perm_insertionSort _ _, List.sorted_insertionSort _ _, ?_⟩
  have hs : (list_all rows).Pairwise rowDesc :=
    List.sorted_insertionSort rowDesc rows
  refine hs.imp ?_
  intro a b hab ta tb hva hvb hea heb
  have hm : memLe (bytesOf (fmtTimestamp tb)) (bytesOf (fmtTimestamp ta))
      = true := by
    rw [← hea, ← heb]; exact hab
  rw [bytesOf_fmtTimestamp hvb, bytesOf_fmtTimestamp hva] at hm
  exact (memLe_fmtBytes hvb hva).mp hm

/-- Witness for C7 at a concrete two-row store (inserted oldest first,
listed newest first). -/
theorem c7_witness :
    list_all [⟨"i1", "f1", some "small", "2023-05-01 10:00:00", none, none⟩,
              ⟨"i2", "f2", some "large", "2024-01-02 03:04:05", none, none⟩]
      = [⟨"i2", "f2", some "large", "2024-01-02 03:04:05", none, none⟩,
         ⟨"i1", "f1", some "small", "2023-05-01 10:00:00", none, none⟩]
    ∧ (list_all [⟨"i1", "f1", some "small", "2023-05-01 10:00:00", none, none⟩,
          ⟨"i2", "f2", some "large", "2024-01-02 03:04:05", none, none⟩]).Perm
        [⟨"i1", "f1", some "small", "2023-05-01 10:00:00", none, none⟩,
         ⟨"i2", "f2", some "large", "2024-01-02 03:04:05", none, none⟩]
    ∧ (list_all [⟨"i1", "f1", some "small", "2023-05-01 10:00:00", none, none⟩,
          ⟨"i2", "f2", some "large", "2024-01-02 03:04:05", none, none⟩]).Sorted
        rowDesc :=
  ⟨by decide,
   (c7_listing_order
     [⟨"i1", "f1", some "small", "2023-05-01 10:00:00", none, none⟩,
      ⟨"i2", "f2", some "large", "2024-01-02 03:04:05", none, none⟩]).1,
   (c7_listing_order
     [⟨"i1", "f1", some "small", "2023-05-01 10:00:00", none, none⟩,
      ⟨"i2", "f2", some "large", "2024-01-02 03:04:05", none, none⟩]).2.1⟩

end GarbageApp
